import Mathlib

/-!
Verification development for the SciCal service (src/main.py): a FastAPI
application exposing authenticated calculation endpoints (sqrt, cbrt, log10,
sin, tan, integrate), a token-issuing login endpoint, and an audit log
persisted through a SQLAlchemy session.

Shallow embedding conventions:
  - Python floats are idealised as real numbers; the value `1/3` appearing in
    the cbrt handler is idealised as the exact rational 1/3.
  - Python `x ** y` on floats follows CPython semantics: for a negative base
    and non-integral exponent it yields the principal complex power, which is
    exactly `Complex.cpow` on the real inputs.  For a non-negative base the
    result is the real power, which agrees with `Complex.cpow`.
  - An HTTP request outcome is `Except Exc V`: `Exc.http s d` is a raised
    `HTTPException(status_code=s, detail=d)` (surfaced with status `s`),
    `Exc.exn n` an uncaught Python exception of class `n`, which FastAPI
    surfaces as a 500 Internal Server Error.
  - bcrypt is idealised as an injective tagging scheme: `verify_password p h`
    holds exactly when `h` is the hash of `p`.  Signed JWTs are modelled
    structurally: a `BearerToken` is either a payload correctly signed with
    the server secret, or anything else (`malformed`), which `jwt.decode`
    rejects.
  - The SQLAlchemy session/log table is a list of committed rows plus a flag
    saying whether the storage layer accepts the next commit; a failed commit
    raises (modelled as `Exc.exn "SQLAlchemyError"`) and leaves the committed
    rows unchanged.
  - `str(result)` (the rendering used for the `result` column) is an
    arbitrary function parameter `render`, applied to the very value the
    handler returns.
-/

namespace SciCal

/-- Outcome of a raised exception inside a request: either a FastAPI
`HTTPException` carrying a status code and detail message, or an uncaught
Python exception (named by its class), which FastAPI turns into a 500. -/
inductive Exc where
  | http (status : Nat) (detail : String)
  | exn (name : String)
  deriving DecidableEq, Repr

/-- The HTTP status code the client observes for a raised exception:
`HTTPException` carries its own status; an uncaught exception becomes 500. -/
def Exc.statusCode : Exc → Nat
  | .http s _ => s
  | .exn _ => 500

/-- A client error is a 4xx status. -/
def Exc.isClientError (e : Exc) : Prop :=
  400 ≤ e.statusCode ∧ e.statusCode < 500

instance (e : Exc) : Decidable e.isClientError := by
  unfold Exc.isClientError; infer_instance

/-- The pydantic `User` model of src/main.py: just a username. -/
structure User where
  username : String
  deriving DecidableEq, Repr

/-- Idealised bcrypt hash (`pwd_context.hash`): injective tagging. -/
def pwd_hash (password : String) : String := "bcrypt." ++ password

/-- `verify_password` from src/main.py, under the idealised bcrypt model:
verification succeeds exactly when the hash is the hash of the plaintext. -/
def verify_password (plain hashed : String) : Bool :=
  hashed == pwd_hash plain

/-- `fake_users_db`: the fixed credential table, one user `testuser` with
the bcrypt hash of `testpass`. Stored as an association list
username to hashed password. -/
def fake_users_db : List (String × String) :=
  [("testuser", pwd_hash "testpass")]

/-- Dictionary lookup `db.get(username)` and `username in db`. -/
def lookup_user (db : List (String × String)) (username : String) :
    Option String :=
  (db.find? (fun p => p.1 == username)).map (fun p => p.2)

/-- `get_user` from src/main.py: if the username is a key of the table,
return a `User` wrapping it; otherwise the Python function falls through
and returns `None`. -/
def get_user (db : List (String × String)) (username : String) : Option User :=
  match lookup_user db username with
  | some _ => some { username := username }
  | none => none

/-- `authenticate_user` from src/main.py: look the user up in
`fake_users_db`; if absent, or if the password does not verify against the
stored hash, return falsy (`none`); otherwise return the `User`. -/
def authenticate_user (username password : String) : Option User :=
  match lookup_user fake_users_db username with
  | none => none
  | some hashed =>
      if verify_password password hashed then some { username := username }
      else none

/-- Claims of a JWT as used by this service: an optional subject and an
expiry timestamp (seconds). -/
structure TokenPayload where
  sub : Option String
  exp : Nat
  deriving DecidableEq, Repr

/-- A bearer token string, modelled structurally: either a payload correctly
signed with `SECRET_KEY`, or any other string (bad signature, garbage). -/
inductive BearerToken where
  | signed (payload : TokenPayload)
  | malformed
  deriving DecidableEq, Repr

/-- The configuration constant `ACCESS_TOKEN_EXPIRE_MINUTES = 30` of
src/main.py.  Note: nothing in src/main.py ever reads it. -/
def ACCESS_TOKEN_EXPIRE_MINUTES : Nat := 30

/-- `create_access_token` from src/main.py.  `sub` stands for the `data`
dict `{"sub": username}` its only caller passes; `expires_delta` is the
optional validity window in seconds.  The code uses
`expires_delta or timedelta(minutes=15)`, so the default window is 15
minutes, not `ACCESS_TOKEN_EXPIRE_MINUTES`. -/
def create_access_token (sub : String) (now : Nat)
    (expires_delta : Option Nat) : BearerToken :=
  .signed { sub := some sub, exp := now + expires_delta.getD (15 * 60) }

/-- `jwt.decode(token, SECRET_KEY, algorithms=[ALGORITHM])`: rejects a token
that is not correctly signed (`JWTError`), and a correctly signed token whose
expiry has passed (`ExpiredSignatureError`, a subclass of `JWTError`);
otherwise returns the payload. -/
def jwt_decode (token : BearerToken) (now : Nat) : Except Exc TokenPayload :=
  match token with
  | .malformed => .error (.exn "JWTError")
  | .signed p =>
      if p.exp < now then .error (.exn "ExpiredSignatureError") else .ok p

/-- The `credentials_exception` of `get_current_user`. -/
def credentials_exception : Exc :=
  .http 401 "Could not validate credentials"

/-- `get_current_user` from src/main.py: decode the token (any `JWTError`
becomes the 401 `credentials_exception`), fail with the same 401 if the
`sub` claim is absent, and otherwise return `get_user(fake_users_db, sub)` —
which is `None` when the subject is not a known user; that `None` is
returned, not an error. -/
def get_current_user (token : BearerToken) (now : Nat) :
    Except Exc (Option User) :=
  match jwt_decode token now with
  | .error _ => .error credentials_exception
  | .ok payload =>
      match payload.sub with
      | none => .error credentials_exception
      | some username => .ok (get_user fake_users_db username)

/-- The response model of POST /token. -/
structure Token where
  access_token : BearerToken
  token_type : String
  deriving DecidableEq, Repr

/-- `login` (POST /token) from src/main.py: authenticate the form
credentials; on falsy result raise `HTTPException(400, "Incorrect username
or password")`; otherwise mint a token with `data={"sub": username}` and no
`expires_delta`. -/
def login (username password : String) (now : Nat) : Except Exc Token :=
  match authenticate_user username password with
  | none => .error (.http 400 "Incorrect username or password")
  | some user =>
      .ok { access_token := create_access_token user.username now none,
            token_type := "bearer" }

/-- A row of the `logs` table (id and timestamp are store-assigned and not
modelled; a row's position in the list plays the role of its id). -/
structure LogEntry where
  operation : String
  result : String
  deriving DecidableEq, Repr

/-- The relational store behind a request's session: the committed rows, and
whether the storage layer will accept the next commit (modelling the
possibility of a persistence failure). -/
structure Db where
  committed : List LogEntry
  commitOk : Bool
  deriving DecidableEq, Repr

/-- `db.commit()` after `db.add(...)` of the pending rows: on success the
rows are appended to the table; on failure the driver raises (modelled as an
uncaught `SQLAlchemyError`) and nothing is persisted. -/
def db_commit (db : Db) (pending : List LogEntry) : Except Exc Db :=
  if db.commitOk then
    .ok { db with committed := db.committed ++ pending }
  else .error (.exn "SQLAlchemyError")

/-- `log_operation` from src/main.py: build a `LogEntry` from the operation
name and rendered result, `db.add` it and `db.commit()`.  (The subsequent
`logger.info` observability emit has no effect on the store.) -/
def log_operation (db : Db) (operation result : String) : Except Exc Db :=
  db_commit db [{ operation := operation, result := result }]

/-- The shared shape of every calculation endpoint of src/main.py, with the
FastAPI dependency and body order made explicit: resolve the
`get_current_user` dependency (a raised exception short-circuits the body),
run the computation (which may itself raise), call `log_operation` with the
operation name and the rendered result (a raised persistence error
propagates), and only then return the computed value. -/
def run_handler {V : Type} (auth : Except Exc (Option User))
    (compute : Except Exc V) (opname : String) (render : V → String)
    (db : Db) : Except Exc V × Db :=
  match auth with
  | .error e => (.error e, db)
  | .ok _ =>
      match compute with
      | .error e => (.error e, db)
      | .ok v =>
          match log_operation db opname (render v) with
          | .error e => (.error e, db)
          | .ok db2 => (.ok v, db2)

/-- Python `math.sqrt`: raises `ValueError` for a negative argument,
otherwise returns the square root. -/
noncomputable def math_sqrt (x : ℝ) : Except Exc ℝ :=
  if x < 0 then .error (.exn "ValueError") else .ok (Real.sqrt x)

/-- Python `math.log10`: raises `ValueError` for a non-positive argument,
otherwise returns the base-10 logarithm. -/
noncomputable def math_log10 (x : ℝ) : Except Exc ℝ :=
  if x ≤ 0 then .error (.exn "ValueError") else .ok (Real.logb 10 x)

/-- CPython float `x ** y`: the principal complex power.  For `x ≥ 0` this
is the real power (a float); for `x < 0` with non-integral `y` CPython
returns the principal complex value, e.g. `(-8.0) ** (1/3)` is
`1.0000000000000002 + 1.7320508075688772j`. -/
noncomputable def py_pow (x y : ℝ) : ℂ := (x : ℂ) ^ (y : ℂ)

/-- GET /sqrt: `calc_sqrt` from src/main.py. -/
noncomputable def calc_sqrt (token : BearerToken) (now : Nat)
    (render : ℝ → String) (x : ℝ) (db : Db) : Except Exc ℝ × Db :=
  run_handler (get_current_user token now) (math_sqrt x) "SQRT" render db

/-- GET /cbrt: `calc_cbrt` from src/main.py computes `x ** (1/3)`, which
never raises (for negative `x` it silently produces a complex value). -/
noncomputable def calc_cbrt (token : BearerToken) (now : Nat)
    (render : ℂ → String) (x : ℝ) (db : Db) : Except Exc ℂ × Db :=
  run_handler (get_current_user token now) (.ok (py_pow x (1 / 3))) "CBRT"
    render db

/-- GET /log: `calc_log` from src/main.py. -/
noncomputable def calc_log (token : BearerToken) (now : Nat)
    (render : ℝ → String) (x : ℝ) (db : Db) : Except Exc ℝ × Db :=
  run_handler (get_current_user token now) (math_log10 x) "LOG" render db

/-- GET /sin: `calc_sin` from src/main.py. -/
noncomputable def calc_sin (token : BearerToken) (now : Nat)
    (render : ℝ → String) (x : ℝ) (db : Db) : Except Exc ℝ × Db :=
  run_handler (get_current_user token now) (.ok (Real.sin x)) "SIN" render db

/-- GET /tan: `calc_tan` from src/main.py. -/
noncomputable def calc_tan (token : BearerToken) (now : Nat)
    (render : ℝ → String) (x : ℝ) (db : Db) : Except Exc ℝ × Db :=
  run_handler (get_current_user token now) (.ok (Real.tan x)) "TAN" render db

/-- The value `(b**2 - a**2)/2` computed by the /integrate handler. -/
noncomputable def integrate_val (a b : ℝ) : ℝ := (b ^ 2 - a ^ 2) / 2

/-- GET /integrate: `calc_integrate` from src/main.py. -/
noncomputable def calc_integrate (token : BearerToken) (now : Nat)
    (render : ℝ → String) (a b : ℝ) (db : Db) : Except Exc ℝ × Db :=
  run_handler (get_current_user token now) (.ok (integrate_val a b))
    "INTEGRATION" render db

/-! Shared facts about the handler pipeline. -/

/-- A raised dependency exception short-circuits the handler: the error is
the response and the store is untouched, whatever the computation. -/
theorem run_handler_error {V : Type} (e : Exc) (compute : Except Exc V)
    (opname : String) (render : V → String) (db : Db) :
    run_handler (.error e) compute opname render db = (.error e, db) := rfl

/-- A computation that raises propagates: the error is the response and the
store is untouched. -/
theorem run_handler_compute_error {V : Type} (u : Option User) (e : Exc)
    (opname : String) (render : V → String) (db : Db) :
    run_handler (.ok u) (.error e) opname render db = (.error e, db) := rfl

/-- On an authenticated request with a successful computation, the handler
either commits exactly one new row (operation name, rendered value) and
answers the value, or the commit fails and the raised persistence error is
the response with the store untouched. -/
theorem run_handler_ok {V : Type} (u : Option User) (v : V)
    (opname : String) (render : V → String) (db : Db) :
    run_handler (.ok u) (.ok v) opname render db =
      if db.commitOk then
        (.ok v, { db with committed :=
          db.committed ++ [{ operation := opname, result := render v }] })
      else (.error (.exn "SQLAlchemyError"), db) := by
  unfold run_handler log_operation db_commit
  by_cases h : db.commitOk <;> simp [h]

/-- A handler that answers a value has committed exactly one new row:
the operation name paired with the rendering of the answered value. -/
theorem run_handler_ok_log {V : Type} (auth : Except Exc (Option User))
    (compute : Except Exc V) (opname : String) (render : V → String)
    (db : Db) (v : V) (db2 : Db)
    (h : run_handler auth compute opname render db = (.ok v, db2)) :
    db2.committed =
      db.committed ++ [{ operation := opname, result := render v }] := by
  match auth with
  | .error e => simp [run_handler] at h
  | .ok u =>
    match compute with
    | .error e => simp [run_handler] at h
    | .ok w =>
      rw [run_handler_ok] at h
      by_cases hc : db.commitOk
      · rw [if_pos hc] at h
        obtain ⟨h1, h2⟩ := Prod.mk.injEq .. ▸ h
        cases h1
        exact h2 ▸ rfl
      · rw [if_neg hc] at h
        simp at h

/-! Claim theorems. -/

/-- C1: for every calculation endpoint, a request whose bearer-token
authentication fails is answered with that authentication error, with no
computation observable and no log entry written; and a request answered with
a computed value has committed exactly one new LogEntry, after the
computation and before the response, whose operation field is the endpoint's
operation name and whose result field is the rendering (`str`) of the very
value returned. -/
theorem c1_auth_gate_and_audit_log (token : BearerToken) (now : Nat)
    (render : ℝ → String) (renderC : ℂ → String) (x a b : ℝ) (db : Db) :
    (∀ e : Exc, get_current_user token now = .error e →
      calc_sqrt token now render x db = (.error e, db) ∧
      calc_cbrt token now renderC x db = (.error e, db) ∧
      calc_log token now render x db = (.error e, db) ∧
      calc_sin token now render x db = (.error e, db) ∧
      calc_tan token now render x db = (.error e, db) ∧
      calc_integrate token now render a b db = (.error e, db)) ∧
    (∀ (v : ℝ) (db2 : Db), calc_sqrt token now render x db = (.ok v, db2) →
      db2.committed =
        db.committed ++ [{ operation := "SQRT", result := render v }]) ∧
    (∀ (v : ℂ) (db2 : Db), calc_cbrt token now renderC x db = (.ok v, db2) →
      db2.committed =
        db.committed ++ [{ operation := "CBRT", result := renderC v }]) ∧
    (∀ (v : ℝ) (db2 : Db), calc_log token now render x db = (.ok v, db2) →
      db2.committed =
        db.committed ++ [{ operation := "LOG", result := render v }]) ∧
    (∀ (v : ℝ) (db2 : Db), calc_sin token now render x db = (.ok v, db2) →
      db2.committed =
        db.committed ++ [{ operation := "SIN", result := render v }]) ∧
    (∀ (v : ℝ) (db2 : Db), calc_tan token now render x db = (.ok v, db2) →
      db2.committed =
        db.committed ++ [{ operation := "TAN", result := render v }]) ∧
    (∀ (v : ℝ) (db2 : Db),
      calc_integrate token now render a b db = (.ok v, db2) →
      db2.committed =
        db.committed ++
          [{ operation := "INTEGRATION", result := render v }]) := by
  refine ⟨fun e he => ?_, fun v db2 h => run_handler_ok_log _ _ _ _ _ _ _ h,
    fun v db2 h => run_handler_ok_log _ _ _ _ _ _ _ h,
    fun v db2 h => run_handler_ok_log _ _ _ _ _ _ _ h,
    fun v db2 h => run_handler_ok_log _ _ _ _ _ _ _ h,
    fun v db2 h => run_handler_ok_log _ _ _ _ _ _ _ h,
    fun v db2 h => run_handler_ok_log _ _ _ _ _ _ _ h⟩
  unfold calc_sqrt calc_cbrt calc_log calc_sin calc_tan calc_integrate
  rw [he]
  exact ⟨rfl, rfl, rfl, rfl, rfl, rfl⟩

/-- C3 (code bug): the token minted by a successful POST /token carries an
expiry of issuance time plus 15 minutes — the default of
`create_access_token`, since `login` passes no `expires_delta` — and not the
30 minutes of the (never read) `ACCESS_TOKEN_EXPIRE_MINUTES` configuration
constant. Evaluated at the failing input: username `testuser`, password
`testpass`, issuance time 0. -/
theorem c3_expiry_is_fifteen_minutes :
    login "testuser" "testpass" 0 =
      .ok { access_token :=
              .signed { sub := some "testuser", exp := 15 * 60 },
            token_type := "bearer" } ∧
    15 * 60 ≠ ACCESS_TOKEN_EXPIRE_MINUTES * 60 := by
  exact ⟨rfl, by decide⟩

/-- C9: a POST /token with an unknown username and one with a known username
but a password that fails verification are answered identically: the same
Authentication error, status 400, detail `Incorrect username or password`,
and no token is issued in either case. -/
theorem c9_login_failures_indistinguishable (u1 p1 u2 p2 : String)
    (hsh : String) (now1 now2 : Nat)
    (hunknown : lookup_user fake_users_db u1 = none)
    (hknown : lookup_user fake_users_db u2 = some hsh)
    (hwrong : verify_password p2 hsh = false) :
    login u1 p1 now1 = .error (.http 400 "Incorrect username or password") ∧
    login u2 p2 now2 = .error (.http 400 "Incorrect username or password") ∧
    login u1 p1 now1 = login u2 p2 now2 := by
  have h1 : login u1 p1 now1 =
      .error (.http 400 "Incorrect username or password") := by
    unfold login authenticate_user
    rw [hunknown]
  have h2 : login u2 p2 now2 =
      .error (.http 400 "Incorrect username or password") := by
    unfold login authenticate_user
    rw [hknown]
    simp [hwrong]
  exact ⟨h1, h2, h1.trans h2.symm⟩

/-- Witness for C9: the unknown username `nobody` and the known username
`testuser` with the wrong password `wrongpass` get the same 400 response. -/
theorem c9_login_failures_indistinguishable_witness :
    login "nobody" "pw" 3 =
      .error (.http 400 "Incorrect username or password") ∧
    login "testuser" "wrongpass" 7 =
      .error (.http 400 "Incorrect username or password") ∧
    login "nobody" "pw" 3 = login "testuser" "wrongpass" 7 :=
  c9_login_failures_indistinguishable "nobody" "pw" "testuser" "wrongpass"
    (pwd_hash "testpass") 3 7 (by decide) (by decide) (by decide)

/-- C2 counterexample: the authenticated request GET /sqrt with x = -1 is
answered by an uncaught `ValueError` from `math.sqrt` — surfaced as a 500
server error, not as a 4xx client error, so the Domain error is not
surfaced as a client error as the claim states. -/
theorem c2_counterexample :
    (calc_sqrt (.signed { sub := some "testuser", exp := 1 }) 0
        (fun _ => "") (-1) { committed := [], commitOk := true }).1 =
      .error (.exn "ValueError") ∧
    ¬ (Exc.exn "ValueError").isClientError := by
  have hauth : get_current_user
      (.signed { sub := some "testuser", exp := 1 }) 0 =
      .ok (some { username := "testuser" }) := rfl
  have hm : math_sqrt (-1) = .error (.exn "ValueError") := by
    unfold math_sqrt
    rw [if_pos (by norm_num : (-1 : ℝ) < 0)]
  unfold calc_sqrt
  rw [hauth, hm, run_handler_compute_error]
  exact ⟨rfl, by decide⟩

/-- C2 (amended): on an authenticated GET /sqrt whose commit succeeds, an
argument x < 0 makes `math.sqrt` raise a `ValueError` that propagates
uncaught (a 500 server error — not a client error), with no result computed
and no log entry; for x ≥ 0 the endpoint returns v = √x with v·v = x and
logs it. -/
theorem c2_sqrt_amended (token : BearerToken) (now : Nat)
    (render : ℝ → String) (x : ℝ) (db : Db) (u : Option User)
    (hauth : get_current_user token now = .ok u)
    (hc : db.commitOk = true) :
    (x < 0 →
      calc_sqrt token now render x db = (.error (.exn "ValueError"), db) ∧
      Exc.statusCode (.exn "ValueError") = 500) ∧
    (0 ≤ x →
      calc_sqrt token now render x db =
        (.ok (Real.sqrt x),
         { db with committed := db.committed ++
             [{ operation := "SQRT", result := render (Real.sqrt x) }] }) ∧
      Real.sqrt x * Real.sqrt x = x) := by
  constructor
  · intro hx
    have hm : math_sqrt x = .error (.exn "ValueError") := by
      unfold math_sqrt; rw [if_pos hx]
    unfold calc_sqrt
    rw [hauth, hm, run_handler_compute_error]
    exact ⟨rfl, rfl⟩
  · intro hx
    have hm : math_sqrt x = .ok (Real.sqrt x) := by
      unfold math_sqrt; rw [if_neg (not_lt.mpr hx)]
    unfold calc_sqrt
    rw [hauth, hm, run_handler_ok, if_pos hc]
    exact ⟨rfl, Real.mul_self_sqrt hx⟩

/-- Witness for C2 (amended): at x = 16 with a valid testuser token the
endpoint answers √16 and commits one SQRT row. -/
theorem c2_sqrt_amended_witness :
    calc_sqrt (.signed { sub := some "testuser", exp := 1 }) 0
        (fun _ => "r") 16 { committed := [], commitOk := true } =
      (.ok (Real.sqrt 16),
       { committed := [{ operation := "SQRT", result := "r" }],
         commitOk := true }) ∧
    Real.sqrt 16 * Real.sqrt 16 = 16 := by
  have h := (c2_sqrt_amended (.signed { sub := some "testuser", exp := 1 }) 0
      (fun _ => "r") 16 { committed := [], commitOk := true }
      (some { username := "testuser" }) rfl rfl).2
      (by norm_num)
  exact ⟨h.1, h.2⟩

/-- C6 counterexample: the authenticated request GET /log with x = 0 is
answered by an uncaught `ValueError` from `math.log10` — a 500 server
error, not a 4xx client error, so the Domain error is not surfaced as a
client error as the claim states. -/
theorem c6_counterexample :
    (calc_log (.signed { sub := some "testuser", exp := 1 }) 0
        (fun _ => "") 0 { committed := [], commitOk := true }).1 =
      .error (.exn "ValueError") ∧
    ¬ (Exc.exn "ValueError").isClientError := by
  have hauth : get_current_user
      (.signed { sub := some "testuser", exp := 1 }) 0 =
      .ok (some { username := "testuser" }) := rfl
  have hm : math_log10 0 = .error (.exn "ValueError") := by
    unfold math_log10
    rw [if_pos (le_refl (0 : ℝ))]
  unfold calc_log
  rw [hauth, hm, run_handler_compute_error]
  exact ⟨rfl, by decide⟩

/-- C6 (amended): on an authenticated GET /log whose commit succeeds, an
argument x ≤ 0 makes `math.log10` raise a `ValueError` that propagates
uncaught (a 500 server error — not a client error); for x > 0 the endpoint
returns v = log₁₀ x with 10 ^ v = x and logs it. -/
theorem c6_log_amended (token : BearerToken) (now : Nat)
    (render : ℝ → String) (x : ℝ) (db : Db) (u : Option User)
    (hauth : get_current_user token now = .ok u)
    (hc : db.commitOk = true) :
    (x ≤ 0 →
      calc_log token now render x db = (.error (.exn "ValueError"), db) ∧
      Exc.statusCode (.exn "ValueError") = 500) ∧
    (0 < x →
      calc_log token now render x db =
        (.ok (Real.logb 10 x),
         { db with committed := db.committed ++
             [{ operation := "LOG",
                result := render (Real.logb 10 x) }] }) ∧
      (10 : ℝ) ^ Real.logb 10 x = x) := by
  constructor
  · intro hx
    have hm : math_log10 x = .error (.exn "ValueError") := by
      unfold math_log10; rw [if_pos hx]
    unfold calc_log
    rw [hauth, hm, run_handler_compute_error]
    exact ⟨rfl, rfl⟩
  · intro hx
    have hm : math_log10 x = .ok (Real.logb 10 x) := by
      unfold math_log10; rw [if_neg (not_le.mpr hx)]
    unfold calc_log
    rw [hauth, hm, run_handler_ok, if_pos hc]
    refine ⟨rfl, Real.rpow_logb (by norm_num) (by norm_num) hx⟩

/-- Witness for C6 (amended): at x = 100 with a valid testuser token the
endpoint answers log₁₀ 100 with 10 ^ log₁₀ 100 = 100, committing one LOG
row. -/
theorem c6_log_amended_witness :
    calc_log (.signed { sub := some "testuser", exp := 1 }) 0
        (fun _ => "r") 100 { committed := [], commitOk := true } =
      (.ok (Real.logb 10 100),
       { committed := [{ operation := "LOG", result := "r" }],
         commitOk := true }) ∧
    (10 : ℝ) ^ Real.logb 10 100 = 100 := by
  have h := (c6_log_amended (.signed { sub := some "testuser", exp := 1 }) 0
      (fun _ => "r") 100 { committed := [], commitOk := true }
      (some { username := "testuser" }) rfl rfl).2
      (by norm_num)
  exact ⟨h.1, h.2⟩

/-- C7: on an authenticated GET /integrate whose commit succeeds, the
endpoint never fails on the bounds: for every pair a, b — including a > b —
it answers `(b² - a²)/2` and commits one INTEGRATION row. -/
theorem c7_integrate_total (token : BearerToken) (now : Nat)
    (render : ℝ → String) (a b : ℝ) (db : Db) (u : Option User)
    (hauth : get_current_user token now = .ok u)
    (hc : db.commitOk = true) :
    calc_integrate token now render a b db =
      (.ok (integrate_val a b),
       { db with committed := db.committed ++
           [{ operation := "INTEGRATION",
              result := render (integrate_val a b) }] }) ∧
    integrate_val a b = (b ^ 2 - a ^ 2) / 2 := by
  unfold calc_integrate
  rw [hauth, run_handler_ok, if_pos hc]
  exact ⟨rfl, rfl⟩

/-- Witness for C7: with a > b (a = 3, b = 1) the authenticated endpoint
still succeeds and answers (1² - 3²)/2 = -4. -/
theorem c7_integrate_total_witness :
    calc_integrate (.signed { sub := some "testuser", exp := 1 }) 0
        (fun _ => "r") 3 1 { committed := [], commitOk := true } =
      (.ok (integrate_val 3 1),
       { committed := [{ operation := "INTEGRATION", result := "r" }],
         commitOk := true }) ∧
    integrate_val 3 1 = -4 := by
  have h := c7_integrate_total (.signed { sub := some "testuser", exp := 1 })
      0 (fun _ => "r") 3 1 { committed := [], commitOk := true }
      (some { username := "testuser" }) rfl rfl
  refine ⟨h.1, ?_⟩
  unfold integrate_val
  norm_num

/-- C8: on an authenticated calculation request whose computation succeeds
but whose audit-log commit fails, the raised persistence error is the
response of the same request — a 500 server error — the computed result is
not returned, and the store is unchanged (the failure is not swallowed). -/
theorem c8_persistence_failure_propagates (token : BearerToken) (now : Nat)
    (render : ℝ → String) (renderC : ℂ → String) (x a b : ℝ) (db : Db)
    (u : Option User)
    (hauth : get_current_user token now = .ok u)
    (hfail : db.commitOk = false) :
    (0 ≤ x → calc_sqrt token now render x db =
      (.error (.exn "SQLAlchemyError"), db)) ∧
    calc_cbrt token now renderC x db =
      (.error (.exn "SQLAlchemyError"), db) ∧
    (0 < x → calc_log token now render x db =
      (.error (.exn "SQLAlchemyError"), db)) ∧
    calc_sin token now render x db =
      (.error (.exn "SQLAlchemyError"), db) ∧
    calc_tan token now render x db =
      (.error (.exn "SQLAlchemyError"), db) ∧
    calc_integrate token now render a b db =
      (.error (.exn "SQLAlchemyError"), db) ∧
    Exc.statusCode (.exn "SQLAlchemyError") = 500 := by
  refine ⟨fun hx => ?_, ?_, fun hx => ?_, ?_, ?_, ?_, rfl⟩
  · have hm : math_sqrt x = .ok (Real.sqrt x) := by
      unfold math_sqrt; rw [if_neg (not_lt.mpr hx)]
    unfold calc_sqrt
    rw [hauth, hm, run_handler_ok, if_neg (by simp [hfail])]
  · unfold calc_cbrt
    rw [hauth, run_handler_ok, if_neg (by simp [hfail])]
  · have hm : math_log10 x = .ok (Real.logb 10 x) := by
      unfold math_log10; rw [if_neg (not_le.mpr hx)]
    unfold calc_log
    rw [hauth, hm, run_handler_ok, if_neg (by simp [hfail])]
  · unfold calc_sin
    rw [hauth, run_handler_ok, if_neg (by simp [hfail])]
  · unfold calc_tan
    rw [hauth, run_handler_ok, if_neg (by simp [hfail])]
  · unfold calc_integrate
    rw [hauth, run_handler_ok, if_neg (by simp [hfail])]

/-- Witness for C8: with a valid testuser token and a store that refuses
the commit, GET /sqrt?x=16 and GET /integrate?a=3&b=1 are both answered by
the 500 persistence error, not by their computed results. -/
theorem c8_persistence_failure_propagates_witness :
    calc_sqrt (.signed { sub := some "testuser", exp := 1 }) 0
        (fun _ => "r") 16 { committed := [], commitOk := false } =
      (.error (.exn "SQLAlchemyError"),
       { committed := [], commitOk := false }) ∧
    calc_integrate (.signed { sub := some "testuser", exp := 1 }) 0
        (fun _ => "r") 3 1 { committed := [], commitOk := false } =
      (.error (.exn "SQLAlchemyError"),
       { committed := [], commitOk := false }) ∧
    Exc.statusCode (.exn "SQLAlchemyError") = 500 := by
  have h := c8_persistence_failure_propagates
      (.signed { sub := some "testuser", exp := 1 }) 0 (fun _ => "r")
      (fun _ => "r") 16 3 1 { committed := [], commitOk := false }
      (some { username := "testuser" }) rfl rfl
  exact ⟨h.1 (by norm_num), h.2.2.2.2.2.1, h.2.2.2.2.2.2⟩

/-- C5: for a correctly signed, unexpired token: an absent subject claim is
rejected with the 401 credentials exception, but a subject that does not
resolve to a user in the credential store is not rejected — the Auth Gate
returns an empty identity (`none`) and the calculation handler still
executes (here: GET /sqrt computes, logs and answers as usual). -/
theorem c5_unresolved_subject_not_rejected (p : TokenPayload) (now : Nat)
    (hvalid : now ≤ p.exp) :
    (p.sub = none →
      get_current_user (.signed p) now = .error credentials_exception) ∧
    (∀ username : String, p.sub = some username →
      lookup_user fake_users_db username = none →
      get_current_user (.signed p) now = .ok none ∧
      ∀ (render : ℝ → String) (x : ℝ) (db : Db), 0 ≤ x →
        db.commitOk = true →
        calc_sqrt (.signed p) now render x db =
          (.ok (Real.sqrt x),
           { db with committed := db.committed ++
               [{ operation := "SQRT",
                  result := render (Real.sqrt x) }] })) := by
  have hdecode : jwt_decode (.signed p) now = .ok p := by
    simp only [jwt_decode]
    rw [if_neg (Nat.not_lt.mpr hvalid)]
  constructor
  · intro hsub
    simp only [get_current_user, hdecode, hsub]
  · intro username hsub hlookup
    have hgate : get_current_user (.signed p) now = .ok none := by
      simp only [get_current_user, hdecode, hsub, get_user, hlookup]
    refine ⟨hgate, fun render x db hx hc => ?_⟩
    have hm : math_sqrt x = .ok (Real.sqrt x) := by
      unfold math_sqrt; rw [if_neg (not_lt.mpr hx)]
    unfold calc_sqrt
    rw [hgate, hm, run_handler_ok, if_pos hc]

/-- Witness for C5: a signed, unexpired token for the unknown subject
`ghost` passes the Auth Gate with an empty identity, and GET /sqrt?x=16
still computes, logs one SQRT row and answers √16. -/
theorem c5_unresolved_subject_not_rejected_witness :
    get_current_user (.signed { sub := some "ghost", exp := 10 }) 0 =
      .ok none ∧
    calc_sqrt (.signed { sub := some "ghost", exp := 10 }) 0
        (fun _ => "r") 16 { committed := [], commitOk := true } =
      (.ok (Real.sqrt 16),
       { committed := [{ operation := "SQRT", result := "r" }],
         commitOk := true }) := by
  have h := (c5_unresolved_subject_not_rejected
      { sub := some "ghost", exp := 10 } 0 (by norm_num)).2 "ghost" rfl rfl
  exact ⟨h.1, h.2 (fun _ => "r") 16 { committed := [], commitOk := true }
    (by norm_num) rfl⟩

/-- For a negative base, CPython's principal complex power with exponent 1/3
has imaginary part exp(re) · sin(π/3) ≠ 0: the value is not a real number,
hence not the real cube root. -/
theorem py_pow_third_im_ne_zero (x : ℝ) (hx : x < 0) :
    (py_pow x (1 / 3)).im ≠ 0 := by
  have hx0 : (x : ℂ) ≠ 0 := Complex.ofReal_ne_zero.mpr (ne_of_lt hx)
  unfold py_pow
  rw [Complex.cpow_def_of_ne_zero hx0, Complex.exp_im]
  have him : (Complex.log x * (((1 : ℝ) / 3 : ℝ) : ℂ)).im = Real.pi / 3 := by
    rw [Complex.mul_im]
    simp [Complex.log_im, Complex.arg_ofReal_of_neg hx]
    ring
  rw [him, Real.sin_pi_div_three]
  have hexp : 0 < Real.exp (Complex.log x * (((1 : ℝ) / 3 : ℝ) : ℂ)).re :=
    Real.exp_pos _
  have hsin : (0 : ℝ) < Real.sqrt 3 / 2 := by
    have : (0 : ℝ) < Real.sqrt 3 := Real.sqrt_pos.mpr (by norm_num)
    linarith
  positivity

/-- C4 counterexample: the authenticated GET /cbrt with x = -8 answers the
value of `(-8) ** (1/3)`, whose imaginary part is nonzero — a complex
number, not the real cube root -2. -/
theorem c4_counterexample :
    (calc_cbrt (.signed { sub := some "testuser", exp := 1 }) 0
        (fun _ => "") (-8) { committed := [], commitOk := true }).1 =
      .ok (py_pow (-8) (1 / 3)) ∧
    (py_pow (-8) (1 / 3)).im ≠ 0 := by
  have hauth : get_current_user
      (.signed { sub := some "testuser", exp := 1 }) 0 =
      .ok (some { username := "testuser" }) := rfl
  constructor
  · unfold calc_cbrt
    rw [hauth, run_handler_ok]
    rfl
  · exact py_pow_third_im_ne_zero (-8) (by norm_num)

/-- C4 (amended): on an authenticated GET /cbrt whose commit succeeds, the
endpoint always answers `x ** (1/3)` and logs one CBRT row; for x ≥ 0 that
value is the real cube root (a real v with v³ = x), but for x < 0 it is the
principal complex root with nonzero imaginary part — not the real cube
root. -/
theorem c4_cbrt_amended (token : BearerToken) (now : Nat)
    (render : ℂ → String) (x : ℝ) (db : Db) (u : Option User)
    (hauth : get_current_user token now = .ok u)
    (hc : db.commitOk = true) :
    calc_cbrt token now render x db =
      (.ok (py_pow x (1 / 3)),
       { db with committed := db.committed ++
           [{ operation := "CBRT",
              result := render (py_pow x (1 / 3)) }] }) ∧
    (0 ≤ x → py_pow x (1 / 3) = ((x ^ ((1 : ℝ) / 3) : ℝ) : ℂ) ∧
      (x ^ ((1 : ℝ) / 3)) ^ (3 : ℕ) = x) ∧
    (x < 0 → (py_pow x (1 / 3)).im ≠ 0) := by
  refine ⟨?_, fun hx => ⟨?_, ?_⟩, fun hx => py_pow_third_im_ne_zero x hx⟩
  · unfold calc_cbrt
    rw [hauth, run_handler_ok, if_pos hc]
  · unfold py_pow
    rw [Complex.ofReal_cpow hx]
  · rw [← Real.rpow_natCast (x ^ ((1 : ℝ) / 3)) 3, ← Real.rpow_mul hx]
    norm_num

/-- Witness for C4 (amended): at x = 8 the authenticated endpoint logs one
CBRT row and answers the real cube root: (8^(1/3))³ = 8. -/
theorem c4_cbrt_amended_witness :
    calc_cbrt (.signed { sub := some "testuser", exp := 1 }) 0
        (fun _ => "r") 8 { committed := [], commitOk := true } =
      (.ok (py_pow 8 (1 / 3)),
       { committed := [{ operation := "CBRT", result := "r" }],
         commitOk := true }) ∧
    ((8 : ℝ) ^ ((1 : ℝ) / 3)) ^ (3 : ℕ) = 8 := by
  have h := c4_cbrt_amended (.signed { sub := some "testuser", exp := 1 }) 0
      (fun _ => "r") 8 { committed := [], commitOk := true }
      (some { username := "testuser" }) rfl rfl
  exact ⟨h.1, (h.2.1 (by norm_num)).2⟩

/-- C10: the integrate computation `(b^2 - a^2)/2` is antisymmetric in its
bounds and vanishes on equal bounds. -/
theorem c10_integrate_antisymmetric (a b : ℝ) :
    integrate_val a b = -integrate_val b a ∧ integrate_val a a = 0 := by
  unfold integrate_val
  constructor <;> ring

end SciCal
